import Mathlib

/-!
Verification of the invoice financial state engine of the Sijil backend.

Numbers are modelled as exact rationals (ℚ), dates as integers (milliseconds
since the epoch), and each Mongoose document as a Lean structure carrying the
schema fields the computation rules read and write.  Mongoose pre-save hooks
become explicit functions from document to document (parameterised by the
current time), controller endpoints become functions returning
`Except error result`, and the per-invoice payment ledger is a list of
payment records.
-/

namespace Sijil

/-- Invoice lifecycle status enum shared by all invoice variants
(`salesSchema.status`, `freightInvoiceSchema.status`,
`dubaiClearanceInvoiceSchema.status`). -/
inductive InvStatus where
  | unpaid
  | partially_paid
  | paid
  | overdue
deriving DecidableEq, Repr

/-- Status derivation as written identically in the three pre-save hooks:
paid if outstanding ≤ 0, else partially_paid if received > 0, else overdue
if now is past the due date, else unpaid. -/
def deriveStatus (outstanding received : ℚ) (dueDate now : ℤ) : InvStatus :=
  if outstanding ≤ 0 then .paid
  else if 0 < received then .partially_paid
  else if dueDate < now then .overdue
  else .unpaid

/-- The Sales document (`salesSchema`): the numeric and date fields read or
written by the computation rules.  `discountTotal` is the field the
payment-deletion controller assigns the sum of per-payment discounts to. -/
structure SalesDoc where
  quantity : ℚ
  rate : ℚ
  vatPercentage : ℚ
  vatAmount : ℚ
  discount : ℚ
  amount : ℚ
  receivedAmount : ℚ
  outstandingAmount : ℚ
  discountTotal : ℚ
  dueDate : ℤ
  status : InvStatus
  lastPaymentDate : Option ℤ
deriving DecidableEq, Repr

/-- The `salesSchema.pre('save')` hook: recompute VAT, gross amount,
outstanding amount and status from the authoritative inputs.  Note the gross
amount is the raw `subtotal + vatAmount - discount`, with no clamping. -/
def salesPreSave (s : SalesDoc) (now : ℤ) : SalesDoc :=
  let subtotal := s.quantity * s.rate
  let vatAmount := subtotal * s.vatPercentage / 100
  let amount := subtotal + vatAmount - s.discount
  let outstandingAmount := amount - s.receivedAmount
  { s with
    vatAmount := vatAmount
    amount := amount
    outstandingAmount := outstandingAmount
    status := deriveStatus outstandingAmount s.receivedAmount s.dueDate now }

/-- The min/max validators of the `salesSchema` numeric fields (quantity ≥ 1,
rate ≥ 0, VAT percentage in [0, 100], and min 0 on vatAmount, discount,
amount, receivedAmount and outstandingAmount).  Mongoose `save()` runs
validation on the document's current, caller-assigned values before the
user `pre('save')` hook, so values assigned by controller or method code
are checked here while hook-recomputed values escape validation. -/
def salesValidate (s : SalesDoc) : Prop :=
  1 ≤ s.quantity ∧ 0 ≤ s.rate ∧ 0 ≤ s.vatPercentage ∧ s.vatPercentage ≤ 100
  ∧ 0 ≤ s.vatAmount ∧ 0 ≤ s.discount ∧ 0 ≤ s.amount ∧ 0 ≤ s.receivedAmount
  ∧ 0 ≤ s.outstandingAmount

instance (s : SalesDoc) : Decidable (salesValidate s) := by
  unfold salesValidate
  infer_instance

/-- A persisted Sales payment record (`paymentSchema`): amount, optional
per-payment discount (schema default 0), and payment date.  `pid` stands in
for the Mongo ObjectId. -/
structure PaymentRec where
  pid : ℕ
  amount : ℚ
  discount : ℚ
  paymentDate : ℤ
deriving DecidableEq, Repr

/-- The body of a `POST /api/sales/:id/payment` request, after the
controller's `Number(...)` coercions: amount, discount (default 0) and
payment date. -/
structure PaymentReq where
  amount : ℚ
  discount : ℚ
  paymentDate : ℤ
deriving DecidableEq, Repr

/-- The error responses the Sales `addPayment` controller can produce before
any write, plus `serverError` for the 500 raised when the created payment
record fails schema validation (`amount` below its min of 0). -/
inductive SalesPayError where
  | saleNotFound
  | invalidPayment
  | alreadyPaid
  | overpayment (attempted limit : ℚ)
  | serverError
deriving DecidableEq, Repr

/-- The in-memory mutations `salesSchema.methods.addPayment` performs on the
sale between `payment.save()` and `this.save()`: add the amount to
`receivedAmount`, recompute the outstanding amount, set `lastPaymentDate`
and the status inline.  These are the values document validation sees at
`this.save()`, before the pre-save hook recomputes the derived fields. -/
def salesAfterPaymentAssignments (s : SalesDoc) (req : PaymentReq) (now : ℤ) : SalesDoc :=
  let received := s.receivedAmount + req.amount
  let outstanding := s.amount - received
  { s with
    receivedAmount := received
    outstandingAmount := outstanding
    lastPaymentDate := some req.paymentDate
    status := deriveStatus outstanding received s.dueDate now }

/-- The three ways `salesSchema.methods.addPayment` can end: the payment
record fails its own schema validation and nothing is persisted; the
payment record is persisted but the sale's `save()` throws a
ValidationError on the method-assigned values (leaving the invoice
unchanged and the payment orphaned); or both writes succeed. -/
inductive SalesMethodResult where
  | paymentInvalid
  | invoiceInvalid (p : PaymentRec)
  | saved (s' : SalesDoc) (p : PaymentRec)
deriving DecidableEq, Repr

/-- `salesSchema.methods.addPayment`: persist a new payment record — created
without a discount, so the schema default 0 is stored; its `save()` throws
when the amount is below the schema minimum 0, persisting nothing — then
mutate the sale and `save()` it.  The sale's `save()` first validates the
method-assigned values (`salesValidate`; a failure throws after the payment
record was already persisted), then runs the pre-save hook, whose
recomputed values escape validation. -/
def salesAddPaymentMethod (s : SalesDoc) (fid : ℕ) (req : PaymentReq) (now : ℤ) :
    SalesMethodResult :=
  if req.amount < 0 then .paymentInvalid
  else
    let payment : PaymentRec :=
      { pid := fid, amount := req.amount, discount := 0, paymentDate := req.paymentDate }
    let s1 := salesAfterPaymentAssignments s req now
    if salesValidate s1 then .saved (salesPreSave s1 now) payment
    else .invoiceInvalid payment

/-- The observable outcome of one `addPayment` request: the HTTP response
(the created payment on success, an error otherwise), the stored invoice
after the request, and the stored payment ledger after the request. -/
structure SalesPayOutcome where
  response : Except SalesPayError PaymentRec
  sale : Option SalesDoc
  payments : List PaymentRec
deriving Repr

/-- The `addPayment` controller (salesController): guards in source order —
sale exists; amount or discount positive; not already fully paid (distinct
error); amount + discount within the outstanding amount (error carries the
attempted total and the limit) — then delegates to the model method.  A
thrown ValidationError surfaces as the generic 500 (`serverError`); on the
invoice-validation failure the payment record is already persisted, so the
ledger grows even though the invoice is unchanged. -/
def salesAddPayment (sale? : Option SalesDoc) (payments : List PaymentRec) (fid : ℕ)
    (req : PaymentReq) (now : ℤ) : SalesPayOutcome :=
  match sale? with
  | none => ⟨.error .saleNotFound, none, payments⟩
  | some sale =>
    if req.amount ≤ 0 ∧ req.discount ≤ 0 then ⟨.error .invalidPayment, some sale, payments⟩
    else if sale.outstandingAmount ≤ 0 then ⟨.error .alreadyPaid, some sale, payments⟩
    else if sale.outstandingAmount < req.amount + req.discount then
      ⟨.error (.overpayment (req.amount + req.discount) sale.outstandingAmount),
        some sale, payments⟩
    else
      match salesAddPaymentMethod sale fid req now with
      | .paymentInvalid => ⟨.error .serverError, some sale, payments⟩
      | .invoiceInvalid p => ⟨.error .serverError, some sale, payments ++ [p]⟩
      | .saved s' p => ⟨.ok p, some s', payments ++ [p]⟩

/-- `ceilToTwoDecimals` (numberFormatter): integers pass through unchanged;
otherwise `Math.ceil(value * 100 - 1e-10) / 100`, the epsilon guarding
against binary floating-point noise just above hundredth boundaries. -/
def ceilToTwoDecimals (v : ℚ) : ℚ :=
  if (⌊v⌋ : ℚ) = v then v
  else ((⌈v * 100 - 1 / 10 ^ 10⌉ : ℤ) : ℚ) / 100

/-- The descending-by-payment-date comparison used by the payment-deletion
controller's `sort((a, b) => b.paymentDate - a.paymentDate)`. -/
def laterPayment (a b : PaymentRec) : Prop := b.paymentDate ≤ a.paymentDate

instance : DecidableRel laterPayment := fun a b => by
  unfold laterPayment; infer_instance

instance : IsTotal PaymentRec laterPayment :=
  ⟨fun a b => (le_total b.paymentDate a.paymentDate).imp id id⟩

instance : IsTrans PaymentRec laterPayment :=
  ⟨fun _ _ _ h1 h2 => le_trans h2 h1⟩

/-- The `deletePayment` controller (salesController), after the admin and
password checks: remove the payment, re-sum `receivedAmount` and
`discountTotal` over the remaining payments, recompute the ceiled amounts,
status and `lastPaymentDate` (max-date payment first after a descending
sort), then `save()` — which re-runs the pre-save hook over the result.
Returns `none` when the payment id is not among the sale's payments (404). -/
def salesDeletePayment (sale : SalesDoc) (payments : List PaymentRec) (pid : ℕ)
    (now : ℤ) : Option (SalesDoc × List PaymentRec) :=
  if (payments.filter (fun p => p.pid = pid)).isEmpty then none
  else
    let remaining := payments.filter (fun p => p.pid ≠ pid)
    let totalReceived := (remaining.map PaymentRec.amount).sum
    let totalDiscount := (remaining.map PaymentRec.discount).sum
    let subtotal := ceilToTwoDecimals (sale.quantity * sale.rate)
    let vatAmount := ceilToTwoDecimals (subtotal * sale.vatPercentage / 100)
    let amount := ceilToTwoDecimals (max 0 (subtotal + vatAmount - totalDiscount))
    let outstanding := ceilToTwoDecimals (amount - totalReceived)
    let lastPaymentDate :=
      match remaining.insertionSort laterPayment with
      | [] => none
      | p :: _ => some p.paymentDate
    let s1 := { sale with
      receivedAmount := totalReceived
      discountTotal := totalDiscount
      vatAmount := vatAmount
      amount := amount
      outstandingAmount := outstanding
      status := deriveStatus outstanding totalReceived sale.dueDate now
      lastPaymentDate := lastPaymentDate }
    some (salesPreSave s1 now, remaining)

/-- The freight invoice document (`freightInvoiceSchema`): PKR principal,
PKR→AED conversion rate, derived AED amount, cumulative paid and outstanding
amounts in both currencies, due date and status. -/
structure FreightDoc where
  amount_pkr : ℚ
  conversion_rate : ℚ
  amount_aed : ℚ
  paid_amount_pkr : ℚ
  paid_amount_aed : ℚ
  outstanding_amount_pkr : ℚ
  outstanding_amount_aed : ℚ
  due_date : ℤ
  status : InvStatus
  last_payment_date : Option ℤ
deriving DecidableEq, Repr

/-- The `freightInvoiceSchema.pre('save')` hook: derive `amount_aed` when the
principal and the rate are truthy and the rate positive (otherwise the field
is left as is), recompute both outstanding amounts as raw subtractions, and
derive the status from the PKR figures. -/
def freightPreSave (f : FreightDoc) (now : ℤ) : FreightDoc :=
  let amount_aed :=
    if f.amount_pkr ≠ 0 ∧ f.conversion_rate ≠ 0 ∧ 0 < f.conversion_rate then
      f.amount_pkr / f.conversion_rate
    else f.amount_aed
  let outstanding_pkr := f.amount_pkr - f.paid_amount_pkr
  let outstanding_aed := amount_aed - f.paid_amount_aed
  { f with
    amount_aed := amount_aed
    outstanding_amount_pkr := outstanding_pkr
    outstanding_amount_aed := outstanding_aed
    status := deriveStatus outstanding_pkr f.paid_amount_pkr f.due_date now }

/-- A persisted freight payment record (`freightPaymentSchema`); its `amount`
carries a schema minimum of 0.01. -/
structure FreightPaymentRec where
  pid : ℕ
  amount : ℚ
  paymentDate : ℤ
deriving DecidableEq, Repr

/-- `freightInvoiceSchema.methods.addPayment`: persist the payment record
(`none` when it fails the 0.01 schema minimum, in which case nothing is
written), add the amount to `paid_amount_pkr`, mirror it into
`paid_amount_aed` through the conversion rate, recompute outstanding
amounts, set `last_payment_date` and the status inline, then `save()` which
re-runs the pre-save hook. -/
def freightAddPaymentMethod (f : FreightDoc) (fid : ℕ) (amount : ℚ)
    (payDate now : ℤ) : Option (FreightDoc × FreightPaymentRec) :=
  if amount < 1 / 100 then none
  else
    let payment : FreightPaymentRec := { pid := fid, amount := amount, paymentDate := payDate }
    let paid_pkr := f.paid_amount_pkr + amount
    let paid_aed := paid_pkr / f.conversion_rate
    let f1 := { f with
      paid_amount_pkr := paid_pkr
      paid_amount_aed := paid_aed
      outstanding_amount_pkr := f.amount_pkr - paid_pkr
      outstanding_amount_aed := f.amount_aed - paid_aed
      last_payment_date := some payDate
      status := deriveStatus (f.amount_pkr - paid_pkr) paid_pkr f.due_date now }
    some (freightPreSave f1 now, payment)

/-- The error responses of the `addFreightPayment` controller.  Unlike the
Sales controller it has no distinct already-fully-paid error and its
overpayment rejection carries no amounts; `serverError` is the 500 raised
when the payment record fails schema validation. -/
inductive FreightPayError where
  | invoiceNotFound
  | amountNotPositive
  | amountExceedsOutstanding
  | serverError
deriving DecidableEq, Repr

/-- The `addFreightPayment` controller (freightController): invoice exists;
amount > 0; amount not above `outstanding_amount_pkr`; then delegate to the
model method. -/
def addFreightPayment (inv? : Option FreightDoc) (payments : List FreightPaymentRec)
    (fid : ℕ) (amount : ℚ) (payDate now : ℤ) :
    Except FreightPayError (FreightDoc × List FreightPaymentRec × FreightPaymentRec) :=
  match inv? with
  | none => .error .invoiceNotFound
  | some inv =>
    if amount ≤ 0 then .error .amountNotPositive
    else if inv.outstanding_amount_pkr < amount then .error .amountExceedsOutstanding
    else
      match freightAddPaymentMethod inv fid amount payDate now with
      | none => .error .serverError
      | some (f', p) => .ok (f', payments ++ [p], p)

/-- The Dubai clearance invoice document (`dubaiClearanceInvoiceSchema`):
AED principal, cumulative paid and outstanding AED amounts, due date and
status. -/
structure DubaiClearanceDoc where
  amount_aed : ℚ
  conversion_rate : ℚ
  paid_amount_aed : ℚ
  outstanding_amount_aed : ℚ
  due_date : ℤ
  status : InvStatus
  last_payment_date : Option ℤ
deriving DecidableEq, Repr

/-- The `dubaiClearanceInvoiceSchema.pre('save')` hook: outstanding is the
raw `amount_aed - paid_amount_aed`; the status chain is identical to the
other variants (`due_date < new Date()` is the same overdue test). -/
def dubaiClearancePreSave (d : DubaiClearanceDoc) (now : ℤ) : DubaiClearanceDoc :=
  let outstanding := d.amount_aed - d.paid_amount_aed
  { d with
    outstanding_amount_aed := outstanding
    status := deriveStatus outstanding d.paid_amount_aed d.due_date now }

/-- `calculateAED` (pkrCalculator): 0 when the principal or the rate is
falsy or the rate nonpositive, else the quotient rounded to 2 decimal
places with `Math.round` (round half toward positive infinity, which is
Mathlib's `round`). -/
def calculateAED (amountPKR conversionRate : ℚ) : ℚ :=
  if amountPKR = 0 ∨ conversionRate = 0 ∨ conversionRate ≤ 0 then 0
  else ((round (amountPKR / conversionRate * 100) : ℤ) : ℚ) / 100

/-- The sequence-counter collection (`counterSchema`): per-key stored
sequence values, absent until first use. -/
def CounterState := String → Option ℤ

/-- `Counter.getNextSequence`: the semantics of
`findByIdAndUpdate(name, inc sequence by 1, new and upsert)` — an absent
counter is created with the increment applied to a missing (zero) field, an
existing one is incremented, and the post-update value is returned. -/
def getNextSequence (c : CounterState) (name : String) : ℤ × CounterState :=
  let seq := (c name).getD 0 + 1
  (seq, fun k => if k = name then some seq else c k)

mutual
/-- A JSON-like response payload value as seen by the response-boundary
formatter: numeric leaves, strings, dates, Mongoose ObjectIds, arrays and
plain objects. -/
inductive JsValue where
  | vnull
  | num (q : ℚ)
  | str (s : String)
  | oid (s : String)
  | date (t : ℤ)
  | arr (xs : JsList)
  | obj (fs : JsFields)
deriving DecidableEq, Repr
/-- A JSON array's element list. -/
inductive JsList where
  | nil
  | cons (hd : JsValue) (tl : JsList)
deriving DecidableEq, Repr
/-- A JSON object's key-value field list. -/
inductive JsFields where
  | nil
  | cons (key : String) (val : JsValue) (tl : JsFields)
deriving DecidableEq, Repr
end

mutual
/-- `formatNumbersDeep` (numberFormatter): ceil numeric leaves to two
decimals, leave dates and ObjectIds as is, and recurse through arrays and
plain objects. -/
def formatNumbersDeep : JsValue → JsValue
  | .vnull => .vnull
  | .num q => .num (ceilToTwoDecimals q)
  | .str s => .str s
  | .oid s => .oid s
  | .date t => .date t
  | .arr xs => .arr (formatNumbersList xs)
  | .obj fs => .obj (formatNumbersFields fs)
/-- `formatNumbersDeep` mapped over an array (`input.map(...)`). -/
def formatNumbersList : JsList → JsList
  | .nil => .nil
  | .cons x xs => .cons (formatNumbersDeep x) (formatNumbersList xs)
/-- `formatNumbersDeep` over an object's keys (the `Object.keys` loop). -/
def formatNumbersFields : JsFields → JsFields
  | .nil => .nil
  | .cons k v fs => .cons k (formatNumbersDeep v) (formatNumbersFields fs)
end

/-- State of one Sales invoice together with its payment ledger. -/
structure SalesState where
  sale : SalesDoc
  payments : List PaymentRec
deriving DecidableEq, Repr

/-- A fresh Sales document as the `createSale` controller constructs it:
quantity, rate, VAT percentage and due date from the request, all derived
and cumulative fields at their schema defaults (discount included — the
create and update controllers never set it). -/
def initialSalesDoc (quantity rate vatPercentage : ℚ) (dueDate : ℤ) : SalesDoc :=
  { quantity := quantity
    rate := rate
    vatPercentage := vatPercentage
    vatAmount := 0
    discount := 0
    amount := 0
    receivedAmount := 0
    outstandingAmount := 0
    discountTotal := 0
    dueDate := dueDate
    status := .unpaid
    lastPaymentDate := none }

/-- The Sales invoice states reachable through the controllers: creation
(with the schema validations on the client-supplied inputs: quantity ≥ 1,
rate ≥ 0, VAT percentage in [0, 100]) followed by any sequence of payment
requests with nonnegative request discounts — each step takes whatever
state the request stores, whether the response succeeds or fails — and
payment deletions. -/
inductive SalesReachable : SalesState → Prop where
  | create (quantity rate vatPercentage : ℚ) (dueDate now : ℤ)
      (hq : 1 ≤ quantity) (hr : 0 ≤ rate) (hv : 0 ≤ vatPercentage)
      (hv100 : vatPercentage ≤ 100) :
      SalesReachable ⟨salesPreSave (initialSalesDoc quantity rate vatPercentage dueDate) now, []⟩
  | addPayment (st : SalesState) (fid : ℕ) (req : PaymentReq) (now : ℤ)
      (sale' : SalesDoc)
      (hre : SalesReachable st) (hd : 0 ≤ req.discount)
      (hsale : (salesAddPayment (some st.sale) st.payments fid req now).sale = some sale') :
      SalesReachable ⟨sale', (salesAddPayment (some st.sale) st.payments fid req now).payments⟩
  | deletePayment (st : SalesState) (pid : ℕ) (now : ℤ)
      (sale' : SalesDoc) (pays' : List PaymentRec)
      (hre : SalesReachable st)
      (hok : salesDeletePayment st.sale st.payments pid now = some (sale', pays')) :
      SalesReachable ⟨sale', pays'⟩

/-- A freshly created Sales invoice: quantity 1, rate 100, no VAT, due date
and creation time 0 — gross 100, outstanding 100, status unpaid. -/
def freshSale : SalesDoc := salesPreSave (initialSalesDoc 1 100 0 0) 0

/-- A Sales document whose flat discount (25) exceeds its subtotal (10). -/
def discountedSale : SalesDoc :=
  { quantity := 1
    rate := 10
    vatPercentage := 0
    vatAmount := 0
    discount := 25
    amount := 0
    receivedAmount := 0
    outstandingAmount := 0
    discountTotal := 0
    dueDate := 0
    status := .unpaid
    lastPaymentDate := none }

/-- The payment record persisted by the request of amount 150 and discount
-50 against `freshSale` — persisted even though the invoice's subsequent
`save()` is rejected by validation, leaving this record orphaned. -/
def overPay : PaymentRec := { pid := 0, amount := 150, discount := 0, paymentDate := 5 }

/-- A fully settled Sales document: nonpositive outstanding amount, status
paid. -/
def settledSale : SalesDoc :=
  { quantity := 1
    rate := 100
    vatPercentage := 0
    vatAmount := 0
    discount := 0
    amount := 100
    receivedAmount := 150
    outstandingAmount := -50
    discountTotal := 0
    dueDate := 0
    status := .paid
    lastPaymentDate := some 5 }

/-- A freshly created freight invoice: 10000 PKR at conversion rate 80, AED
amount still at its schema default 0 until the first save. -/
def freshFreight : FreightDoc :=
  { amount_pkr := 10000
    conversion_rate := 80
    amount_aed := 0
    paid_amount_pkr := 0
    paid_amount_aed := 0
    outstanding_amount_pkr := 0
    outstanding_amount_aed := 0
    due_date := 100
    status := .unpaid
    last_payment_date := none }

/-- `freshFreight` as stored after its first save: AED amount 125,
outstanding 10000 PKR / 125 AED. -/
def savedFreight : FreightDoc := freightPreSave freshFreight 0

/-- The freight payment of 4000 PKR dated 7 stored against `savedFreight`. -/
def freightPay : FreightPaymentRec := { pid := 0, amount := 4000, paymentDate := 7 }

/-- `savedFreight` after accepting the 4000 PKR payment: paid 4000 PKR /
50 AED, outstanding 6000 PKR / 75 AED. -/
def paidFreightAfter : FreightDoc :=
  { amount_pkr := 10000
    conversion_rate := 80
    amount_aed := 125
    paid_amount_pkr := 4000
    paid_amount_aed := 50
    outstanding_amount_pkr := 6000
    outstanding_amount_aed := 75
    due_date := 100
    status := .partially_paid
    last_payment_date := some 7 }

/-- A fully paid freight invoice (outstanding 0). -/
def paidFreight : FreightDoc :=
  { amount_pkr := 100
    conversion_rate := 2
    amount_aed := 50
    paid_amount_pkr := 100
    paid_amount_aed := 50
    outstanding_amount_pkr := 0
    outstanding_amount_aed := 0
    due_date := 0
    status := .paid
    last_payment_date := some 1 }

/-- A partially paid freight invoice with outstanding 10 PKR. -/
def partFreight : FreightDoc :=
  { amount_pkr := 100
    conversion_rate := 2
    amount_aed := 50
    paid_amount_pkr := 90
    paid_amount_aed := 45
    outstanding_amount_pkr := 10
    outstanding_amount_aed := 5
    due_date := 0
    status := .partially_paid
    last_payment_date := some 1 }

/-- The payment record stored for a zero-amount, discount-40 request: the
request discount is not persisted, the stored discount is the schema
default 0. -/
def zeroAmountPay : PaymentRec := { pid := 0, amount := 0, discount := 0, paymentDate := 5 }

/-- `freshSale` after accepting the zero-amount, discount-40 request:
received, outstanding and status unchanged (only the last payment date
moves). -/
def zeroAmountSale : SalesDoc :=
  { quantity := 1
    rate := 100
    vatPercentage := 0
    vatAmount := 0
    discount := 0
    amount := 100
    receivedAmount := 0
    outstandingAmount := 100
    discountTotal := 0
    dueDate := 0
    status := .unpaid
    lastPaymentDate := some 5 }

/-- `freshSale` as stored after an amount-0, discount-40 request at time 1,
past its due date 0: received and outstanding unchanged, but the status
recomputation at the new clock flips unpaid to overdue. -/
def overdueZeroSale : SalesDoc :=
  { quantity := 1
    rate := 100
    vatPercentage := 0
    vatAmount := 0
    discount := 0
    amount := 100
    receivedAmount := 0
    outstandingAmount := 100
    discountTotal := 0
    dueDate := 0
    status := .overdue
    lastPaymentDate := some 5 }

/-- A counter collection with no documents at all. -/
def emptyCounters : CounterState := fun _ => none

/-- The consistency invariant tying a Sales invoice to its payment ledger:
the received amount is the sum of the stored payments' amounts, stored
payments carry the schema-default discount 0 and nonnegative amounts, the
gross and VAT amounts agree with the hook formulas, the outstanding amount
is the raw subtraction, the received amount never exceeds the gross amount,
and the line-item inputs respect their schema bounds with the flat discount
at its never-written default 0. -/
def SalesInv (st : SalesState) : Prop :=
  st.sale.receivedAmount = (st.payments.map PaymentRec.amount).sum
  ∧ (∀ p ∈ st.payments, p.discount = 0)
  ∧ (∀ p ∈ st.payments, 0 ≤ p.amount)
  ∧ st.sale.amount = st.sale.quantity * st.sale.rate
      + st.sale.quantity * st.sale.rate * st.sale.vatPercentage / 100 - st.sale.discount
  ∧ st.sale.outstandingAmount = st.sale.amount - st.sale.receivedAmount
  ∧ st.sale.receivedAmount ≤ st.sale.amount
  ∧ 1 ≤ st.sale.quantity
  ∧ 0 ≤ st.sale.rate
  ∧ 0 ≤ st.sale.vatPercentage
  ∧ st.sale.vatPercentage ≤ 100
  ∧ st.sale.discount = 0
  ∧ st.sale.vatAmount
      = st.sale.quantity * st.sale.rate * st.sale.vatPercentage / 100

/-- A payment request of amount 40 with no discount, dated 5. -/
def payFortyReq : PaymentReq := { amount := 40, discount := 0, paymentDate := 5 }

/-- The payment record stored for `payFortyReq`. -/
def fortyPay : PaymentRec := { pid := 0, amount := 40, discount := 0, paymentDate := 5 }

/-- `freshSale` after accepting `payFortyReq`: received 40, outstanding 60. -/
def fortyPaidSale : SalesDoc :=
  { quantity := 1
    rate := 100
    vatPercentage := 0
    vatAmount := 0
    discount := 0
    amount := 100
    receivedAmount := 40
    outstandingAmount := 60
    discountTotal := 0
    dueDate := 0
    status := .partially_paid
    lastPaymentDate := some 5 }

/-! ### Helper lemmas about the pre-save hooks -/

lemma salesPreSave_amount (s : SalesDoc) (now : ℤ) :
    (salesPreSave s now).amount
      = s.quantity * s.rate + s.quantity * s.rate * s.vatPercentage / 100 - s.discount := rfl

lemma salesPreSave_received (s : SalesDoc) (now : ℤ) :
    (salesPreSave s now).receivedAmount = s.receivedAmount := rfl

lemma salesPreSave_outstanding (s : SalesDoc) (now : ℤ) :
    (salesPreSave s now).outstandingAmount
      = (salesPreSave s now).amount - (salesPreSave s now).receivedAmount := rfl

lemma deriveStatus_spec (o r : ℚ) (due now : ℤ) :
    (deriveStatus o r due now = .paid ↔ o ≤ 0)
    ∧ (deriveStatus o r due now = .partially_paid ↔ 0 < o ∧ 0 < r)
    ∧ (deriveStatus o r due now = .overdue ↔ 0 < o ∧ r ≤ 0 ∧ due < now)
    ∧ (deriveStatus o r due now = .unpaid ↔ 0 < o ∧ r ≤ 0 ∧ now ≤ due) := by
  unfold deriveStatus
  split_ifs with h1 h2 h3 <;>
    refine ⟨?_, ?_, ?_, ?_⟩ <;>
      simp_all

/-- Claim C1 (amended): after any create or update, the `salesSchema`
pre-save hook stores the raw gross amount `subtotal + vatAmount - discount`
without clamping; this coincides with `max(0, subtotal + vatAmount -
discount)` exactly when the discount does not exceed subtotal plus VAT — in
particular on every controller create/update path, where the flat discount
is never set and stays 0. -/
theorem sales_grossAmount_raw_and_clamped (s : SalesDoc) (now : ℤ) :
    (salesPreSave s now).amount
        = s.quantity * s.rate + s.quantity * s.rate * s.vatPercentage / 100 - s.discount
    ∧ (s.discount ≤ s.quantity * s.rate + s.quantity * s.rate * s.vatPercentage / 100 →
        (salesPreSave s now).amount
          = max 0 (s.quantity * s.rate + s.quantity * s.rate * s.vatPercentage / 100
              - s.discount)) := by
  refine ⟨rfl, fun h => ?_⟩
  rw [salesPreSave_amount, max_eq_right (by linarith)]

/-- Witness for the amended C1 at a concrete invoice (quantity 10, rate 100,
VAT 5%, discount 0). -/
theorem sales_grossAmount_witness :
    (salesPreSave (initialSalesDoc 10 100 5 0) 0).amount
      = max 0 ((initialSalesDoc 10 100 5 0).quantity * (initialSalesDoc 10 100 5 0).rate
          + (initialSalesDoc 10 100 5 0).quantity * (initialSalesDoc 10 100 5 0).rate
              * (initialSalesDoc 10 100 5 0).vatPercentage / 100
          - (initialSalesDoc 10 100 5 0).discount) :=
  (sales_grossAmount_raw_and_clamped (initialSalesDoc 10 100 5 0) 0).2
    (by norm_num [initialSalesDoc])

/-- Counterexample to C1 as stated: a Sales document whose discount (25)
exceeds its subtotal (10) is stored with the negative gross -15, not with
`max(0, subtotal + vatAmount - discount) = 0`. -/
theorem sales_grossAmount_not_clamped :
    (salesPreSave discountedSale 0).amount = -15
    ∧ max 0 (discountedSale.quantity * discountedSale.rate
        + discountedSale.quantity * discountedSale.rate * discountedSale.vatPercentage / 100
        - discountedSale.discount) = 0
    ∧ (salesPreSave discountedSale 0).amount
        ≠ max 0 (discountedSale.quantity * discountedSale.rate
            + discountedSale.quantity * discountedSale.rate * discountedSale.vatPercentage / 100
            - discountedSale.discount) := by
  refine ⟨?_, ?_, ?_⟩ <;> norm_num [salesPreSave_amount, discountedSale]

lemma salesAddPayment_ok_inv {sale : SalesDoc} {payments : List PaymentRec} {fid : ℕ}
    {req : PaymentReq} {now : ℤ} {p : PaymentRec}
    (hok : (salesAddPayment (some sale) payments fid req now).response = .ok p) :
    ¬(req.amount ≤ 0 ∧ req.discount ≤ 0)
    ∧ 0 < sale.outstandingAmount
    ∧ req.amount + req.discount ≤ sale.outstandingAmount
    ∧ 0 ≤ req.amount
    ∧ salesValidate (salesAfterPaymentAssignments sale req now)
    ∧ p = { pid := fid, amount := req.amount, discount := 0, paymentDate := req.paymentDate }
    ∧ (salesAddPayment (some sale) payments fid req now).payments = payments ++ [p]
    ∧ (salesAddPayment (some sale) payments fid req now).sale
        = some (salesPreSave (salesAfterPaymentAssignments sale req now) now) := by
  simp only [salesAddPayment, salesAddPaymentMethod] at hok ⊢
  split_ifs at hok ⊢ with h1 h2 h3 h4 h5
  simp at hok
  subst hok
  exact ⟨h1, not_le.mp h2, not_lt.mp h3, not_lt.mp h4, h5, rfl, rfl, rfl⟩

lemma salesAddPayment_cases (sale : SalesDoc) (payments : List PaymentRec) (fid : ℕ)
    (req : PaymentReq) (now : ℤ) :
    ((salesAddPayment (some sale) payments fid req now).sale = some sale
      ∧ (salesAddPayment (some sale) payments fid req now).payments = payments)
    ∨ (¬(req.amount ≤ 0 ∧ req.discount ≤ 0)
      ∧ 0 < sale.outstandingAmount
      ∧ req.amount + req.discount ≤ sale.outstandingAmount
      ∧ 0 ≤ req.amount
      ∧ ¬salesValidate (salesAfterPaymentAssignments sale req now)
      ∧ (salesAddPayment (some sale) payments fid req now).sale = some sale
      ∧ (salesAddPayment (some sale) payments fid req now).payments
          = payments ++ [⟨fid, req.amount, 0, req.paymentDate⟩])
    ∨ (¬(req.amount ≤ 0 ∧ req.discount ≤ 0)
      ∧ 0 < sale.outstandingAmount
      ∧ req.amount + req.discount ≤ sale.outstandingAmount
      ∧ 0 ≤ req.amount
      ∧ salesValidate (salesAfterPaymentAssignments sale req now)
      ∧ (salesAddPayment (some sale) payments fid req now).sale
          = some (salesPreSave (salesAfterPaymentAssignments sale req now) now)
      ∧ (salesAddPayment (some sale) payments fid req now).payments
          = payments ++ [⟨fid, req.amount, 0, req.paymentDate⟩]) := by
  simp only [salesAddPayment, salesAddPaymentMethod]
  split_ifs with h1 h2 h3 h4 h5 <;>
    first
      | exact Or.inl ⟨rfl, rfl⟩
      | exact Or.inr (Or.inr ⟨h1, not_le.mp h2, not_lt.mp h3, not_lt.mp h4, h5, rfl, rfl⟩)
      | exact Or.inr (Or.inl ⟨h1, not_le.mp h2, not_lt.mp h3, not_lt.mp h4, h5, rfl, rfl⟩)

lemma salesDeletePayment_some_inv {sale : SalesDoc} {payments : List PaymentRec}
    {pid : ℕ} {now : ℤ} {s' : SalesDoc} {ps' : List PaymentRec}
    (hok : salesDeletePayment sale payments pid now = some (s', ps')) :
    ps' = payments.filter (fun p => p.pid ≠ pid)
    ∧ s'.receivedAmount = (ps'.map PaymentRec.amount).sum
    ∧ s'.discountTotal = (ps'.map PaymentRec.discount).sum
    ∧ s'.quantity = sale.quantity
    ∧ s'.rate = sale.rate
    ∧ s'.vatPercentage = sale.vatPercentage
    ∧ s'.discount = sale.discount
    ∧ s'.dueDate = sale.dueDate
    ∧ s'.amount = s'.quantity * s'.rate + s'.quantity * s'.rate * s'.vatPercentage / 100
        - s'.discount
    ∧ s'.outstandingAmount = s'.amount - s'.receivedAmount
    ∧ s'.lastPaymentDate
        = (match ps'.insertionSort laterPayment with
            | [] => none
            | p :: _ => some p.paymentDate)
    ∧ s'.vatAmount = s'.quantity * s'.rate * s'.vatPercentage / 100 := by
  simp only [salesDeletePayment] at hok
  split_ifs at hok with h0
  simp only [Option.some.injEq, Prod.mk.injEq] at hok
  obtain ⟨hs, hps⟩ := hok
  subst hps
  subst hs
  exact ⟨rfl, rfl, rfl, rfl, rfl, rfl, rfl, rfl, rfl, rfl, rfl, rfl⟩

lemma addFreightPayment_ok_inv {inv : FreightDoc} {payments : List FreightPaymentRec}
    {fid : ℕ} {amount : ℚ} {payDate now : ℤ} {f' : FreightDoc}
    {ps' : List FreightPaymentRec} {p : FreightPaymentRec}
    (hok : addFreightPayment (some inv) payments fid amount payDate now = .ok (f', ps', p)) :
    0 < amount
    ∧ amount ≤ inv.outstanding_amount_pkr
    ∧ 1 / 100 ≤ amount
    ∧ p = { pid := fid, amount := amount, paymentDate := payDate }
    ∧ ps' = payments ++ [p]
    ∧ f' = freightPreSave { inv with
        paid_amount_pkr := inv.paid_amount_pkr + amount
        paid_amount_aed := (inv.paid_amount_pkr + amount) / inv.conversion_rate
        outstanding_amount_pkr := inv.amount_pkr - (inv.paid_amount_pkr + amount)
        outstanding_amount_aed := inv.amount_aed
          - (inv.paid_amount_pkr + amount) / inv.conversion_rate
        last_payment_date := some payDate
        status := deriveStatus (inv.amount_pkr - (inv.paid_amount_pkr + amount))
          (inv.paid_amount_pkr + amount) inv.due_date now } now := by
  simp only [addFreightPayment, freightAddPaymentMethod] at hok
  split_ifs at hok with h1 h2 h3
  simp only [Except.ok.injEq, Prod.mk.injEq] at hok
  obtain ⟨hf, hps, hp⟩ := hok
  subst hp
  subst hps
  subst hf
  exact ⟨not_le.mp h1, not_lt.mp h2, not_lt.mp h3, rfl, rfl, rfl⟩

/-- Claim C2 (confirmed): after every recomputation — the pre-save hooks of
the Sales, freight and Dubai clearance variants, and the Sales payment
addition, Sales payment deletion and freight payment addition operations —
the stored outstanding amount is the raw subtraction of the stored received
amount from the stored gross amount, with no clamping at 0. -/
theorem outstanding_is_raw_subtraction :
    (∀ (s : SalesDoc) (now : ℤ),
        (salesPreSave s now).outstandingAmount
          = (salesPreSave s now).amount - (salesPreSave s now).receivedAmount)
    ∧ (∀ (f : FreightDoc) (now : ℤ),
        (freightPreSave f now).outstanding_amount_pkr
            = (freightPreSave f now).amount_pkr - (freightPreSave f now).paid_amount_pkr
        ∧ (freightPreSave f now).outstanding_amount_aed
            = (freightPreSave f now).amount_aed - (freightPreSave f now).paid_amount_aed)
    ∧ (∀ (d : DubaiClearanceDoc) (now : ℤ),
        (dubaiClearancePreSave d now).outstanding_amount_aed
          = (dubaiClearancePreSave d now).amount_aed
              - (dubaiClearancePreSave d now).paid_amount_aed)
    ∧ (∀ (sale : SalesDoc) (payments : List PaymentRec) (fid : ℕ) (req : PaymentReq)
        (now : ℤ) (s' : SalesDoc) (p : PaymentRec),
        (salesAddPayment (some sale) payments fid req now).response = .ok p →
        (salesAddPayment (some sale) payments fid req now).sale = some s' →
        s'.outstandingAmount = s'.amount - s'.receivedAmount)
    ∧ (∀ (sale : SalesDoc) (payments : List PaymentRec) (pid : ℕ) (now : ℤ)
        (s' : SalesDoc) (ps' : List PaymentRec),
        salesDeletePayment sale payments pid now = some (s', ps') →
        s'.outstandingAmount = s'.amount - s'.receivedAmount)
    ∧ (∀ (inv : FreightDoc) (payments : List FreightPaymentRec) (fid : ℕ) (amount : ℚ)
        (payDate now : ℤ) (f' : FreightDoc) (ps' : List FreightPaymentRec)
        (p : FreightPaymentRec),
        addFreightPayment (some inv) payments fid amount payDate now = .ok (f', ps', p) →
        f'.outstanding_amount_pkr = f'.amount_pkr - f'.paid_amount_pkr) := by
  refine ⟨fun s now => rfl, fun f now => ⟨rfl, rfl⟩, fun d now => rfl, ?_, ?_, ?_⟩
  · intro sale payments fid req now s' p hok hsale
    obtain ⟨-, -, -, -, -, -, -, hs⟩ := salesAddPayment_ok_inv hok
    rw [hs, Option.some.injEq] at hsale
    subst hsale
    rfl
  · intro sale payments pid now s' ps' hok
    obtain ⟨-, -, -, -, -, -, -, -, -, hout, -, -⟩ := salesDeletePayment_some_inv hok
    exact hout
  · intro inv payments fid amount payDate now f' ps' p hok
    obtain ⟨-, -, -, -, -, hf⟩ := addFreightPayment_ok_inv hok
    subst hf
    rfl

/-- Witness for C2: the payment of 40 against the fresh invoice of gross 100
is accepted and stores outstanding 60 = 100 - 40. -/
theorem outstanding_is_raw_subtraction_witness :
    fortyPaidSale.outstandingAmount = fortyPaidSale.amount - fortyPaidSale.receivedAmount :=
  outstanding_is_raw_subtraction.2.2.2.1 freshSale [] 0 payFortyReq 0
    fortyPaidSale fortyPay
    (by norm_num [salesAddPayment, salesAddPaymentMethod, salesAfterPaymentAssignments,
      salesValidate, freshSale, initialSalesDoc, salesPreSave, deriveStatus, payFortyReq,
      fortyPay])
    (by norm_num [salesAddPayment, salesAddPaymentMethod, salesAfterPaymentAssignments,
      salesValidate, freshSale, initialSalesDoc, salesPreSave, deriveStatus, payFortyReq,
      fortyPaidSale])

/-- Claim C3 (confirmed): for every variant, the status stored by the
pre-save recomputation is the pure priority function of (outstanding,
received, due date, now): paid iff outstanding ≤ 0; else partially_paid iff
received > 0; else overdue iff now is past the due date; else unpaid. -/
theorem status_is_pure_priority_function :
    (∀ (s : SalesDoc) (now : ℤ),
        ((salesPreSave s now).status = .paid ↔ (salesPreSave s now).outstandingAmount ≤ 0)
        ∧ ((salesPreSave s now).status = .partially_paid
            ↔ 0 < (salesPreSave s now).outstandingAmount
              ∧ 0 < (salesPreSave s now).receivedAmount)
        ∧ ((salesPreSave s now).status = .overdue
            ↔ 0 < (salesPreSave s now).outstandingAmount
              ∧ (salesPreSave s now).receivedAmount ≤ 0
              ∧ (salesPreSave s now).dueDate < now)
        ∧ ((salesPreSave s now).status = .unpaid
            ↔ 0 < (salesPreSave s now).outstandingAmount
              ∧ (salesPreSave s now).receivedAmount ≤ 0
              ∧ now ≤ (salesPreSave s now).dueDate))
    ∧ (∀ (f : FreightDoc) (now : ℤ),
        ((freightPreSave f now).status = .paid
            ↔ (freightPreSave f now).outstanding_amount_pkr ≤ 0)
        ∧ ((freightPreSave f now).status = .partially_paid
            ↔ 0 < (freightPreSave f now).outstanding_amount_pkr
              ∧ 0 < (freightPreSave f now).paid_amount_pkr)
        ∧ ((freightPreSave f now).status = .overdue
            ↔ 0 < (freightPreSave f now).outstanding_amount_pkr
              ∧ (freightPreSave f now).paid_amount_pkr ≤ 0
              ∧ (freightPreSave f now).due_date < now)
        ∧ ((freightPreSave f now).status = .unpaid
            ↔ 0 < (freightPreSave f now).outstanding_amount_pkr
              ∧ (freightPreSave f now).paid_amount_pkr ≤ 0
              ∧ now ≤ (freightPreSave f now).due_date))
    ∧ (∀ (d : DubaiClearanceDoc) (now : ℤ),
        ((dubaiClearancePreSave d now).status = .paid
            ↔ (dubaiClearancePreSave d now).outstanding_amount_aed ≤ 0)
        ∧ ((dubaiClearancePreSave d now).status = .partially_paid
            ↔ 0 < (dubaiClearancePreSave d now).outstanding_amount_aed
              ∧ 0 < (dubaiClearancePreSave d now).paid_amount_aed)
        ∧ ((dubaiClearancePreSave d now).status = .overdue
            ↔ 0 < (dubaiClearancePreSave d now).outstanding_amount_aed
              ∧ (dubaiClearancePreSave d now).paid_amount_aed ≤ 0
              ∧ (dubaiClearancePreSave d now).due_date < now)
        ∧ ((dubaiClearancePreSave d now).status = .unpaid
            ↔ 0 < (dubaiClearancePreSave d now).outstanding_amount_aed
              ∧ (dubaiClearancePreSave d now).paid_amount_aed ≤ 0
              ∧ now ≤ (dubaiClearancePreSave d now).due_date)) :=
  ⟨fun s now => deriveStatus_spec _ s.receivedAmount s.dueDate now,
   fun f now => deriveStatus_spec _ f.paid_amount_pkr f.due_date now,
   fun d now => deriveStatus_spec _ d.paid_amount_aed d.due_date now⟩

/-- Claim C4 (amended): a payment request is rejected exactly when one of
these fails: for Sales — the sale exists, the outstanding amount is
positive, the amount or the discount is positive, the amount plus discount
fits in the outstanding amount, the amount is nonnegative (payment-record
validation), and the method-assigned document passes the Sales schema's
min-0 validation (notably, the recomputed outstanding amount must not go
negative, which a negative request discount can cause); for freight — the
invoice exists and the amount lies between the 0.01 schema minimum and the
outstanding PKR amount.  On rejection nothing is written, except the
document-validation rejection, where the payment record was already
persisted (orphaned) while the invoice is unchanged.  The distinct
already-fully-paid error and the overpayment error carrying the attempted
total and the limit belong to the Sales controller only. -/
theorem addPayment_rejection_characterisation :
    (∀ (payments : List PaymentRec) (fid : ℕ) (req : PaymentReq) (now : ℤ),
        salesAddPayment none payments fid req now
          = ⟨.error .saleNotFound, none, payments⟩)
    ∧ (∀ (sale : SalesDoc) (payments : List PaymentRec) (fid : ℕ) (req : PaymentReq)
        (now : ℤ),
        (∃ e, (salesAddPayment (some sale) payments fid req now).response = .error e) ↔
          ¬(0 < sale.outstandingAmount ∧ (0 < req.amount ∨ 0 < req.discount)
            ∧ req.amount + req.discount ≤ sale.outstandingAmount ∧ 0 ≤ req.amount
            ∧ salesValidate (salesAfterPaymentAssignments sale req now)))
    ∧ (∀ (sale : SalesDoc) (payments : List PaymentRec) (fid : ℕ) (req : PaymentReq)
        (now : ℤ),
        sale.outstandingAmount ≤ 0 → (0 < req.amount ∨ 0 < req.discount) →
        salesAddPayment (some sale) payments fid req now
          = ⟨.error .alreadyPaid, some sale, payments⟩)
    ∧ (∀ (sale : SalesDoc) (payments : List PaymentRec) (fid : ℕ) (req : PaymentReq)
        (now : ℤ),
        0 < sale.outstandingAmount → (0 < req.amount ∨ 0 < req.discount) →
        sale.outstandingAmount < req.amount + req.discount →
        salesAddPayment (some sale) payments fid req now
          = ⟨.error (.overpayment (req.amount + req.discount) sale.outstandingAmount),
              some sale, payments⟩)
    ∧ (∀ (sale : SalesDoc) (payments : List PaymentRec) (fid : ℕ) (req : PaymentReq)
        (now : ℤ),
        0 < sale.outstandingAmount → (0 < req.amount ∨ 0 < req.discount) →
        req.amount + req.discount ≤ sale.outstandingAmount → 0 ≤ req.amount →
        ¬salesValidate (salesAfterPaymentAssignments sale req now) →
        salesAddPayment (some sale) payments fid req now
          = ⟨.error .serverError, some sale,
              payments ++ [⟨fid, req.amount, 0, req.paymentDate⟩]⟩)
    ∧ (∀ (payments : List FreightPaymentRec) (fid : ℕ) (amount : ℚ) (payDate now : ℤ),
        addFreightPayment none payments fid amount payDate now = .error .invoiceNotFound)
    ∧ (∀ (inv : FreightDoc) (payments : List FreightPaymentRec) (fid : ℕ) (amount : ℚ)
        (payDate now : ℤ),
        (∃ e, addFreightPayment (some inv) payments fid amount payDate now = .error e) ↔
          ¬(1 / 100 ≤ amount ∧ amount ≤ inv.outstanding_amount_pkr)) := by
  refine ⟨fun _ _ _ _ => rfl, ?_, ?_, ?_, ?_, fun _ _ _ _ _ => rfl, ?_⟩
  · intro sale payments fid req now
    constructor
    · rintro ⟨e, he⟩ ⟨h1, h2, h3, h4, h5⟩
      simp only [salesAddPayment, salesAddPaymentMethod] at he
      rw [if_neg (by rintro ⟨ha, hd⟩; rcases h2 with h | h <;> linarith),
        if_neg (not_le.mpr h1), if_neg (not_lt.mpr h3), if_neg (not_lt.mpr h4),
        if_pos h5] at he
      exact Except.noConfusion he
    · intro h
      rcases hres : (salesAddPayment (some sale) payments fid req now).response with e | p
      · exact ⟨e, rfl⟩
      · obtain ⟨h1, h2, h3, h4, h5, -⟩ := salesAddPayment_ok_inv hres
        refine absurd ⟨h2, ?_, h3, h4, h5⟩ h
        rcases not_and_or.mp h1 with ha | hd
        · exact Or.inl (not_le.mp ha)
        · exact Or.inr (not_le.mp hd)
  · intro sale payments fid req now hout hpos
    simp only [salesAddPayment]
    rw [if_neg (by rintro ⟨ha, hd⟩; rcases hpos with h | h <;> linarith), if_pos hout]
  · intro sale payments fid req now hout hpos hover
    simp only [salesAddPayment]
    rw [if_neg (by rintro ⟨ha, hd⟩; rcases hpos with h | h <;> linarith),
      if_neg (not_le.mpr hout), if_pos hover]
  · intro sale payments fid req now hout hpos hfit ha hval
    simp only [salesAddPayment, salesAddPaymentMethod]
    rw [if_neg (by rintro ⟨ha2, hd⟩; rcases hpos with h | h <;> linarith),
      if_neg (not_le.mpr hout), if_neg (not_lt.mpr hfit), if_neg (not_lt.mpr ha),
      if_neg hval]
  · intro inv payments fid amount payDate now
    constructor
    · rintro ⟨e, he⟩ ⟨h1, h2⟩
      simp only [addFreightPayment, freightAddPaymentMethod] at he
      rw [if_neg (by linarith), if_neg (not_lt.mpr h2), if_neg (not_lt.mpr h1)] at he
      exact Except.noConfusion he
    · intro h
      rcases hres : addFreightPayment (some inv) payments fid amount payDate now with e | out
      · exact ⟨e, rfl⟩
      · obtain ⟨f', ps', p⟩ := out
        obtain ⟨-, h2, h3, -⟩ := addFreightPayment_ok_inv hres
        exact absurd ⟨h3, h2⟩ h

/-- Witness for the amended C4: a payment of 40 against a fully settled
invoice is rejected with the distinct already-fully-paid error, writing
nothing. -/
theorem addPayment_rejection_witness :
    salesAddPayment (some settledSale) [overPay] 1 payFortyReq 0
      = ⟨.error .alreadyPaid, some settledSale, [overPay]⟩ :=
  addPayment_rejection_characterisation.2.2.1 settledSale [overPay] 1 payFortyReq 0
    (by norm_num [settledSale]) (by norm_num [payFortyReq])

/-- Counterexample to C4 as stated: (a) for Sales, the request of amount 150
and discount -50 against a fresh invoice with outstanding 100 satisfies
every precondition the claim lists — the invoice exists, outstanding is
positive, the amount is positive, amount + discount = 100 fits in the
outstanding amount — yet the request is rejected with a 500 (the assigned
outstanding -50 fails the schema's min-0 validation) and, contrary to 'no
payment record is persisted', the ledger now holds the orphaned
150-payment; (b) for freight, the claimed distinct already-fully-paid
rejection does not exist: a payment against a fully paid invoice produces
the same generic amount-exceeds-outstanding error (carrying no amounts) as
a genuine overpayment against a partially paid invoice. -/
theorem addPayment_rejection_counterexample :
    (0 < freshSale.outstandingAmount
      ∧ (0 < (150 : ℚ) ∨ 0 < (-50 : ℚ))
      ∧ (150 : ℚ) + (-50) ≤ freshSale.outstandingAmount
      ∧ (salesAddPayment (some freshSale) [] 0 ⟨150, -50, 5⟩ 0).response
          = .error .serverError
      ∧ (salesAddPayment (some freshSale) [] 0 ⟨150, -50, 5⟩ 0).payments = [overPay]
      ∧ (salesAddPayment (some freshSale) [] 0 ⟨150, -50, 5⟩ 0).sale = some freshSale)
    ∧ addFreightPayment (some paidFreight) [] 0 5 0 0 = .error .amountExceedsOutstanding
    ∧ addFreightPayment (some partFreight) [] 0 20 0 0 = .error .amountExceedsOutstanding := by
  refine ⟨⟨?_, ?_, ?_, ?_, ?_, ?_⟩, ?_, ?_⟩ <;>
    norm_num [freshSale, initialSalesDoc, salesPreSave, deriveStatus, salesAddPayment,
      salesAddPaymentMethod, salesAfterPaymentAssignments, salesValidate, overPay,
      addFreightPayment, freightAddPaymentMethod, paidFreight, partFreight]

lemma salesInv_of_reachable {st : SalesState} (h : SalesReachable st) : SalesInv st := by
  induction h with
  | create q r v due now hq hr hv hv100 =>
    refine ⟨rfl, by simp, by simp, rfl, rfl, ?_, hq, hr, hv, hv100, rfl, rfl⟩
    show (initialSalesDoc q r v due).receivedAmount
      ≤ (salesPreSave (initialSalesDoc q r v due) now).amount
    rw [salesPreSave_amount]
    have h1 : (0 : ℚ) ≤ q * r := mul_nonneg (le_trans zero_le_one hq) hr
    have h2 : (0 : ℚ) ≤ q * r * v := mul_nonneg h1 hv
    show (0 : ℚ) ≤ q * r + q * r * v / 100 - 0
    linarith
  | addPayment st fid req now sale' hre hd hsale ih =>
    obtain ⟨i1, i2, i3, i4, i5, i6, i7, i8, i9, i10, i11, i12⟩ := ih
    have hrec0 : (0 : ℚ) ≤ st.sale.receivedAmount := by
      rw [i1]
      refine List.sum_nonneg ?_
      intro x hx
      obtain ⟨q, hq, rfl⟩ := List.mem_map.mp hx
      exact i3 q hq
    rcases salesAddPayment_cases st.sale st.payments fid req now with
      ⟨hs, hp⟩ | ⟨h1, h2, h3, h4, hnv, hs, hp⟩ | ⟨h1, h2, h3, h4, hv, hs, hp⟩
    · rw [hs, Option.some.injEq] at hsale
      subst hsale
      rw [hp]
      exact ⟨i1, i2, i3, i4, i5, i6, i7, i8, i9, i10, i11, i12⟩
    · refine absurd (?_ : salesValidate (salesAfterPaymentAssignments st.sale req now)) hnv
      have hqr : (0 : ℚ) ≤ st.sale.quantity * st.sale.rate :=
        mul_nonneg (le_trans zero_le_one i7) i8
      have hvat : (0 : ℚ) ≤ st.sale.vatAmount := by
        rw [i12]
        exact div_nonneg (mul_nonneg hqr i9) (by norm_num)
      refine ⟨i7, i8, i9, i10, hvat, le_of_eq i11.symm, ?_, ?_, ?_⟩
      · show (0 : ℚ) ≤ st.sale.amount
        linarith
      · show (0 : ℚ) ≤ st.sale.receivedAmount + req.amount
        linarith
      · show (0 : ℚ) ≤ st.sale.amount - (st.sale.receivedAmount + req.amount)
        rw [i5] at h3
        linarith
    · rw [hs, Option.some.injEq] at hsale
      subst hsale
      rw [hp]
      have hamt : (salesPreSave (salesAfterPaymentAssignments st.sale req now) now).amount
          = st.sale.amount := by
        rw [salesPreSave_amount]
        exact i4.symm
      refine ⟨?_, ?_, ?_, rfl, rfl, ?_, i7, i8, i9, i10, i11, rfl⟩
      · show st.sale.receivedAmount + req.amount = _
        rw [List.map_append, List.sum_append, ← i1]
        simp
      · intro p' hp'
        rcases List.mem_append.mp hp' with hmem | hmem
        · exact i2 p' hmem
        · simp only [List.mem_singleton] at hmem
          subst hmem
          rfl
      · intro p' hp'
        rcases List.mem_append.mp hp' with hmem | hmem
        · exact i3 p' hmem
        · simp only [List.mem_singleton] at hmem
          subst hmem
          exact h4
      · rw [hamt]
        show st.sale.receivedAmount + req.amount ≤ st.sale.amount
        rw [i5] at h3
        linarith
  | deletePayment st pid now sale' pays' hre hok ih =>
    obtain ⟨hps, f1, f2, fq, fr, fv, fd, -, f3, f4, -, fvat⟩ := salesDeletePayment_some_inv hok
    obtain ⟨i1, i2, i3, i4, i5, i6, i7, i8, i9, i10, i11, i12⟩ := ih
    refine ⟨f1, ?_, ?_, f3, f4, ?_, ?_, ?_, ?_, ?_, ?_, fvat⟩
    · intro p' hp'
      rw [hps] at hp'
      exact i2 p' (List.mem_of_mem_filter hp')
    · intro p' hp'
      rw [hps] at hp'
      exact i3 p' (List.mem_of_mem_filter hp')
    · have hsum : (pays'.map PaymentRec.amount).sum
          ≤ (st.payments.map PaymentRec.amount).sum := by
        rw [hps]
        refine List.Sublist.sum_le_sum ((List.filter_sublist _).map _) ?_
        intro a ha
        obtain ⟨q, hq, rfl⟩ := List.mem_map.mp ha
        exact i3 q hq
      have hamt : sale'.amount = st.sale.amount := by
        rw [f3, fq, fr, fv, fd]
        exact i4.symm
      rw [f1, hamt]
      calc (pays'.map PaymentRec.amount).sum
          ≤ (st.payments.map PaymentRec.amount).sum := hsum
        _ = st.sale.receivedAmount := i1.symm
        _ ≤ st.sale.amount := i6
    · rw [fq]; exact i7
    · rw [fr]; exact i8
    · rw [fv]; exact i9
    · rw [fv]; exact i10
    · rw [fd]; exact i11

/-- Claim C5 (amended): over any sequence of payment requests with
nonnegative request discounts — counting the stored state of failed
requests too — and payment deletions, the sum of the non-deleted payments'
amounts plus the sum of their stored discounts never exceeds the invoice's
gross amount.  (Unrestricted, the claim is false: a negative request
discount slips through the overpayment guard, the payment record persists,
and the invoice's save is then rejected by validation, leaving an orphaned
payment whose ledger sum exceeds the gross amount — see the
counterexample.) -/
theorem payments_never_exceed_gross {st : SalesState} (h : SalesReachable st) :
    (st.payments.map PaymentRec.amount).sum + (st.payments.map PaymentRec.discount).sum
      ≤ st.sale.amount := by
  obtain ⟨i1, i2, -, -, -, i6, -, -, -, -, -, -⟩ := salesInv_of_reachable h
  have hz : (st.payments.map PaymentRec.discount).sum = 0 := by
    refine List.sum_eq_zero ?_
    intro x hx
    obtain ⟨p, hp, rfl⟩ := List.mem_map.mp hx
    exact i2 p hp
  rw [hz, add_zero, ← i1]
  exact i6

/-- Witness for the amended C5 at the freshly created invoice. -/
theorem payments_never_exceed_gross_witness :
    ((([] : List PaymentRec).map PaymentRec.amount).sum
        + (([] : List PaymentRec).map PaymentRec.discount).sum)
      ≤ (salesPreSave (initialSalesDoc 1 100 0 0) 0).amount :=
  payments_never_exceed_gross
    (SalesReachable.create 1 100 0 0 0 (by norm_num) (by norm_num) (by norm_num)
      (by norm_num))

/-- Counterexample to C5 as stated: against the fresh invoice of gross 100
(outstanding 100), the request of amount 150 with discount -50 passes every
guard — 150 + (-50) = 100 does not exceed the outstanding amount — so the
150-payment record is persisted; the invoice's save is then rejected by
min-0 validation (assigned outstanding -50) and the request returns 500
with the invoice unchanged.  The stored ledger now sums to 150, above the
stored gross amount 100. -/
theorem payments_exceed_gross_counterexample :
    (salesAddPayment (some freshSale) [] 0 ⟨150, -50, 5⟩ 0).response = .error .serverError
    ∧ (salesAddPayment (some freshSale) [] 0 ⟨150, -50, 5⟩ 0).payments = [overPay]
    ∧ (salesAddPayment (some freshSale) [] 0 ⟨150, -50, 5⟩ 0).sale = some freshSale
    ∧ ([overPay].map PaymentRec.amount).sum + ([overPay].map PaymentRec.discount).sum = 150
    ∧ freshSale.amount = 100
    ∧ (100 : ℚ) < 150 := by
  refine ⟨?_, ?_, ?_, ?_, ?_, ?_⟩ <;>
    norm_num [salesAddPayment, salesAddPaymentMethod, salesAfterPaymentAssignments,
      salesValidate, freshSale, initialSalesDoc, salesPreSave, deriveStatus, overPay]

/-- Claim C7 (confirmed): `getNextSequence` returns exactly one more than
the key's previous value (a missing counter counts as 0, so first use
creates it holding 1 and returns 1), stores the returned value, yields
values increasing by exactly one on successive calls, and leaves every
other key untouched — so per-key values are never reused, never
decremented, and have no gaps. -/
theorem getNextSequence_sequential :
    (∀ (c : CounterState) (name : String),
        (getNextSequence c name).1 = (c name).getD 0 + 1)
    ∧ (∀ (c : CounterState) (name : String),
        (getNextSequence c name).2 name = some (getNextSequence c name).1)
    ∧ (∀ (c : CounterState) (name : String),
        c name = none → (getNextSequence c name).2 name = some 1)
    ∧ (∀ (c : CounterState) (name : String),
        (getNextSequence ((getNextSequence c name).2) name).1
          = (getNextSequence c name).1 + 1)
    ∧ (∀ (c : CounterState) (name k : String),
        k ≠ name → (getNextSequence c name).2 k = c k) := by
  refine ⟨fun c name => rfl, ?_, ?_, ?_, ?_⟩
  · intro c name
    simp [getNextSequence]
  · intro c name h
    simp [getNextSequence, h]
  · intro c name
    simp [getNextSequence]
  · intro c name k h
    simp [getNextSequence, h]

/-- Witness for C7: on an empty counter collection the key is created
holding 1, and the call leaves a different key untouched. -/
theorem getNextSequence_witness :
    (getNextSequence emptyCounters "invoiceNumber").2 "invoiceNumber" = some 1
    ∧ (getNextSequence emptyCounters "invoiceNumber").2 "freight_invoice"
        = emptyCounters "freight_invoice" :=
  ⟨getNextSequence_sequential.2.2.1 emptyCounters "invoiceNumber" rfl,
   getNextSequence_sequential.2.2.2.2 emptyCounters "invoiceNumber" "freight_invoice"
     (by decide)⟩

/-- Claim C8 (confirmed): for a PKR-denominated (freight) invoice saved from
its schema-default state, the stored AED amount is `amount_pkr /
conversion_rate` when the rate is positive and 0 otherwise; after a
payment, the paid and outstanding AED fields mirror the PKR fields through
the same conversion; and the standalone converter maps 10000 PKR at rate 80
to exactly 125.00 AED. -/
theorem pkr_to_aed_conversion :
    (∀ (f : FreightDoc) (now : ℤ), f.amount_aed = 0 →
        (freightPreSave f now).amount_aed
          = if 0 < f.conversion_rate then f.amount_pkr / f.conversion_rate else 0)
    ∧ (∀ (f : FreightDoc) (payments : List FreightPaymentRec) (fid : ℕ) (amount : ℚ)
        (payDate now : ℤ) (f' : FreightDoc) (ps' : List FreightPaymentRec)
        (p : FreightPaymentRec),
        0 < f.conversion_rate → f.amount_pkr ≠ 0 →
        addFreightPayment (some f) payments fid amount payDate now = .ok (f', ps', p) →
        f'.amount_aed = f.amount_pkr / f.conversion_rate
        ∧ f'.paid_amount_aed = f'.paid_amount_pkr / f.conversion_rate
        ∧ f'.outstanding_amount_aed = f'.outstanding_amount_pkr / f.conversion_rate)
    ∧ calculateAED 10000 80 = 125 := by
  refine ⟨?_, ?_, ?_⟩
  · intro f now h0
    show (if f.amount_pkr ≠ 0 ∧ f.conversion_rate ≠ 0 ∧ 0 < f.conversion_rate then
        f.amount_pkr / f.conversion_rate else f.amount_aed) = _
    by_cases h1 : f.amount_pkr ≠ 0 ∧ f.conversion_rate ≠ 0 ∧ 0 < f.conversion_rate
    · rw [if_pos h1, if_pos h1.2.2]
    · rw [if_neg h1, h0]
      by_cases h2 : 0 < f.conversion_rate
      · rw [if_pos h2]
        rcases not_and_or.mp h1 with hp | hrc
        · rw [not_not.mp hp, zero_div]
        · rcases not_and_or.mp hrc with hr | hr
          · exact absurd (ne_of_gt h2) hr
          · exact absurd h2 hr
      · rw [if_neg h2]
  · intro f payments fid amount payDate now f' ps' p hrate hpkr hok
    obtain ⟨-, -, -, -, -, hf⟩ := addFreightPayment_ok_inv hok
    subst hf
    have hcond : f.amount_pkr ≠ 0 ∧ f.conversion_rate ≠ 0 ∧ 0 < f.conversion_rate :=
      ⟨hpkr, ne_of_gt hrate, hrate⟩
    refine ⟨?_, rfl, ?_⟩
    · show (if f.amount_pkr ≠ 0 ∧ f.conversion_rate ≠ 0 ∧ 0 < f.conversion_rate then
          f.amount_pkr / f.conversion_rate else f.amount_aed) = _
      rw [if_pos hcond]
    · show (if f.amount_pkr ≠ 0 ∧ f.conversion_rate ≠ 0 ∧ 0 < f.conversion_rate then
          f.amount_pkr / f.conversion_rate else f.amount_aed)
            - (f.paid_amount_pkr + amount) / f.conversion_rate = _
      rw [if_pos hcond, div_sub_div_same]
      rfl
  · rw [calculateAED, if_neg (by norm_num)]
    norm_num [round_eq]

/-- Witness for C8: the fresh 10000 PKR freight invoice at rate 80 stores
125 AED on first save, and after a 4000 PKR payment the paid and
outstanding AED fields (50 and 75) mirror the PKR fields (4000 and 6000)
through the same rate. -/
theorem pkr_to_aed_witness :
    ((freightPreSave freshFreight 0).amount_aed
        = if 0 < freshFreight.conversion_rate then
            freshFreight.amount_pkr / freshFreight.conversion_rate else 0)
    ∧ paidFreightAfter.amount_aed = savedFreight.amount_pkr / savedFreight.conversion_rate
    ∧ paidFreightAfter.paid_amount_aed
        = paidFreightAfter.paid_amount_pkr / savedFreight.conversion_rate
    ∧ paidFreightAfter.outstanding_amount_aed
        = paidFreightAfter.outstanding_amount_pkr / savedFreight.conversion_rate :=
  ⟨pkr_to_aed_conversion.1 freshFreight 0 rfl,
   pkr_to_aed_conversion.2.1 savedFreight [] 0 4000 7 0 paidFreightAfter [freightPay]
     freightPay
     (by norm_num [savedFreight, freshFreight, freightPreSave])
     (by norm_num [savedFreight, freshFreight, freightPreSave])
     (by norm_num [addFreightPayment, freightAddPaymentMethod, savedFreight, freshFreight,
       freightPreSave, deriveStatus, paidFreightAfter, freightPay])⟩

lemma ceilToTwoDecimals_int (v : ℚ) (h : (⌊v⌋ : ℚ) = v) : ceilToTwoDecimals v = v := by
  rw [ceilToTwoDecimals, if_pos h]

lemma ceilToTwoDecimals_eq_ceiling (v : ℚ) (h : (⌊v⌋ : ℚ) ≠ v)
    (hf : Int.fract (v * 100) = 0 ∨ 1 / 10 ^ 10 < Int.fract (v * 100)) :
    ceilToTwoDecimals v = ((⌈v * 100⌉ : ℤ) : ℚ) / 100 := by
  rw [ceilToTwoDecimals, if_neg h]
  have key : ⌈v * 100 - 1 / 10 ^ 10⌉ = ⌈v * 100⌉ := by
    rw [← Int.self_sub_floor] at hf
    rcases hf with hz | hgt
    · have hx : v * 100 = (⌊v * 100⌋ : ℚ) := by linarith
      have h1 : ⌈v * 100 - 1 / 10 ^ 10⌉ = ⌊v * 100⌋ := by
        rw [Int.ceil_eq_iff]
        constructor
        · rw [hx]; norm_num
        · rw [hx]; norm_num
      have h2 : ⌈v * 100⌉ = ⌊v * 100⌋ := by
        nth_rewrite 1 [hx]
        rw [Int.ceil_intCast]
      rw [h1, h2]
    · refine le_antisymm (Int.ceil_le_ceil (by norm_num)) ?_
      rw [Int.ceil_le]
      have h1 : (⌊v * 100⌋ : ℚ) < v * 100 - 1 / 10 ^ 10 := by linarith
      have h2 : ⌊v * 100⌋ + 1 ≤ ⌈v * 100 - 1 / 10 ^ 10⌉ :=
        Int.add_one_le_iff.mpr (Int.lt_ceil.mpr h1)
      have h3 : ((⌊v * 100⌋ : ℤ) : ℚ) + 1 ≤ ((⌈v * 100 - 1 / 10 ^ 10⌉ : ℤ) : ℚ) := by
        exact_mod_cast h2
      have h4 := Int.lt_floor_add_one (v * 100)
      linarith
  rw [key]

lemma ceilToTwoDecimals_hundredth (n : ℤ) :
    ceilToTwoDecimals ((n : ℚ) / 100) = (n : ℚ) / 100 := by
  by_cases h : (⌊(n : ℚ) / 100⌋ : ℚ) = (n : ℚ) / 100
  · exact ceilToTwoDecimals_int _ h
  · rw [ceilToTwoDecimals, if_neg h, div_mul_cancel₀ _ (by norm_num : (100 : ℚ) ≠ 0)]
    have key : ⌈(n : ℚ) - 1 / 10 ^ 10⌉ = n := by
      rw [Int.ceil_eq_iff]
      constructor
      · norm_num
      · norm_num
    rw [key]

lemma ceilToTwoDecimals_idem (v : ℚ) :
    ceilToTwoDecimals (ceilToTwoDecimals v) = ceilToTwoDecimals v := by
  by_cases h : (⌊v⌋ : ℚ) = v
  · rw [ceilToTwoDecimals_int v h]
    exact ceilToTwoDecimals_int v h
  · have hval : ceilToTwoDecimals v = ((⌈v * 100 - 1 / 10 ^ 10⌉ : ℤ) : ℚ) / 100 := by
      rw [ceilToTwoDecimals, if_neg h]
    rw [hval]
    exact ceilToTwoDecimals_hundredth _

mutual
theorem formatNumbersDeep_idem :
    ∀ j : JsValue, formatNumbersDeep (formatNumbersDeep j) = formatNumbersDeep j
  | .vnull => rfl
  | .num q => by
    simp only [formatNumbersDeep, ceilToTwoDecimals_idem q]
  | .str s => rfl
  | .oid s => rfl
  | .date t => rfl
  | .arr xs => by
    simp only [formatNumbersDeep, formatNumbersList_idem xs]
  | .obj fs => by
    simp only [formatNumbersDeep, formatNumbersFields_idem fs]
theorem formatNumbersList_idem :
    ∀ xs : JsList, formatNumbersList (formatNumbersList xs) = formatNumbersList xs
  | .nil => rfl
  | .cons x xs => by
    simp only [formatNumbersList, formatNumbersDeep_idem x, formatNumbersList_idem xs]
theorem formatNumbersFields_idem :
    ∀ fs : JsFields, formatNumbersFields (formatNumbersFields fs) = formatNumbersFields fs
  | .nil => rfl
  | .cons k v fs => by
    simp only [formatNumbersFields, formatNumbersDeep_idem v, formatNumbersFields_idem fs]
end

/-- Claim C9 (amended): the rounding transform leaves integers and opaque
identifiers (ObjectIds) unchanged and is idempotent (both at the numeric
leaf and over whole payloads); 1.001 maps to 1.01 and 1.20 stays
value-equal to 1.2; but a non-integer value is ceiled to two decimals only
when the scaled value `100 * v` is not within the 1e-10 epsilon above a
whole number — inside that band the deliberate epsilon makes it round down
to the boundary instead (see the counterexample). -/
theorem money_rounding_amended :
    (∀ v : ℚ, (⌊v⌋ : ℚ) ≠ v →
        Int.fract (v * 100) = 0 ∨ 1 / 10 ^ 10 < Int.fract (v * 100) →
        ceilToTwoDecimals v = ((⌈v * 100⌉ : ℤ) : ℚ) / 100)
    ∧ (∀ v : ℚ, ceilToTwoDecimals (ceilToTwoDecimals v) = ceilToTwoDecimals v)
    ∧ (∀ v : ℚ, (⌊v⌋ : ℚ) = v → ceilToTwoDecimals v = v)
    ∧ (∀ j : JsValue, formatNumbersDeep (formatNumbersDeep j) = formatNumbersDeep j)
    ∧ (∀ s : String, formatNumbersDeep (.oid s) = .oid s)
    ∧ ceilToTwoDecimals (1001 / 1000) = 101 / 100
    ∧ ceilToTwoDecimals (6 / 5) = 6 / 5 := by
  refine ⟨ceilToTwoDecimals_eq_ceiling, ceilToTwoDecimals_idem, ceilToTwoDecimals_int,
    formatNumbersDeep_idem, fun s => rfl, ?_, ?_⟩
  · rw [ceilToTwoDecimals, if_neg (by norm_num)]
    rw [show ⌈(1001 / 1000 : ℚ) * 100 - 1 / 10 ^ 10⌉ = (101 : ℤ) by
      rw [Int.ceil_eq_iff]; norm_num]
    norm_num
  · rw [ceilToTwoDecimals, if_neg (by norm_num)]
    rw [show ⌈(6 / 5 : ℚ) * 100 - 1 / 10 ^ 10⌉ = (120 : ℤ) by
      rw [Int.ceil_eq_iff]; norm_num]
    norm_num

/-- Witness for the amended C9 at 1.001: its scaled fractional part 0.1 is
above the epsilon, so the transform agrees with the true two-decimal
ceiling 1.01. -/
theorem money_rounding_witness :
    ceilToTwoDecimals (1001 / 1000) = ((⌈(1001 / 1000 : ℚ) * 100⌉ : ℤ) : ℚ) / 100 :=
  money_rounding_amended.1 (1001 / 1000) (by norm_num)
    (Or.inr (by rw [← Int.self_sub_floor]; norm_num))

/-- Counterexample to C9 as stated: the non-integer 1 + 1e-13 is not
rounded up — the transform returns 1, strictly below its true two-decimal
ceiling 1.01, because 100 * v falls within the 1e-10 epsilon above 100. -/
theorem money_rounding_counterexample :
    (⌊(1 + 1 / 10 ^ 13 : ℚ)⌋ : ℚ) ≠ 1 + 1 / 10 ^ 13
    ∧ ceilToTwoDecimals (1 + 1 / 10 ^ 13) = 1
    ∧ ((⌈(1 + 1 / 10 ^ 13 : ℚ) * 100⌉ : ℤ) : ℚ) / 100 = 101 / 100
    ∧ (1 : ℚ) ≠ 101 / 100 := by
  refine ⟨by norm_num, ?_, ?_, by norm_num⟩
  · rw [ceilToTwoDecimals, if_neg (by norm_num)]
    rw [show ⌈(1 + 1 / 10 ^ 13 : ℚ) * 100 - 1 / 10 ^ 10⌉ = (100 : ℤ) by
      rw [Int.ceil_eq_iff]; norm_num]
    norm_num
  · rw [show ⌈(1 + 1 / 10 ^ 13 : ℚ) * 100⌉ = (101 : ℤ) by
      rw [Int.ceil_eq_iff]; norm_num]
    norm_num

/-- Claim C10 (amended): for accepted Sales payment requests the per-payment
discount supplied by the caller is not persisted — the stored payment
carries the schema default 0 — and the invoice's received amount,
outstanding amount and status depend on the payment amount only (two
accepted requests differing only in their discount produce identical
outcomes); an accepted request with amount 0 and positive discount leaves
the received amount and the outstanding amount unchanged, and stores the
status the pure status function yields at those unchanged amounts and the
current time — which is the previous status except that the unpaid/overdue
distinction is re-evaluated against the current clock (see the
counterexample: an unpaid invoice whose due date has passed flips to
overdue). -/
theorem payment_discount_not_persisted :
    (∀ (sale : SalesDoc) (payments : List PaymentRec) (fid : ℕ) (req : PaymentReq)
        (now : ℤ) (p : PaymentRec),
        (salesAddPayment (some sale) payments fid req now).response = .ok p →
        p.discount = 0)
    ∧ (∀ (sale : SalesDoc) (payments : List PaymentRec) (fid : ℕ) (a d d' : ℚ)
        (pd now : ℤ),
        ¬(a ≤ 0 ∧ d ≤ 0) → ¬(a ≤ 0 ∧ d' ≤ 0) →
        0 < sale.outstandingAmount →
        a + d ≤ sale.outstandingAmount → a + d' ≤ sale.outstandingAmount →
        salesAddPayment (some sale) payments fid ⟨a, d, pd⟩ now
          = salesAddPayment (some sale) payments fid ⟨a, d', pd⟩ now)
    ∧ (∀ (sale : SalesDoc) (payments : List PaymentRec) (fid : ℕ) (d : ℚ) (pd now : ℤ),
        0 < sale.outstandingAmount → 0 < d → d ≤ sale.outstandingAmount →
        sale.amount = sale.quantity * sale.rate
          + sale.quantity * sale.rate * sale.vatPercentage / 100 - sale.discount →
        sale.outstandingAmount = sale.amount - sale.receivedAmount →
        salesValidate sale →
        (∀ e, (salesAddPayment (some sale) payments fid ⟨0, d, pd⟩ now).response
            ≠ .error e)
        ∧ (∀ (s' : SalesDoc) (p : PaymentRec),
            (salesAddPayment (some sale) payments fid ⟨0, d, pd⟩ now).response = .ok p →
            (salesAddPayment (some sale) payments fid ⟨0, d, pd⟩ now).sale = some s' →
            s'.receivedAmount = sale.receivedAmount
            ∧ s'.outstandingAmount = sale.outstandingAmount
            ∧ s'.status = deriveStatus sale.outstandingAmount sale.receivedAmount
                sale.dueDate now)) := by
  refine ⟨?_, ?_, ?_⟩
  · intro sale payments fid req now p hok
    obtain ⟨-, -, -, -, -, hp, -, -⟩ := salesAddPayment_ok_inv hok
    subst hp
    rfl
  · intro sale payments fid a d d' pd now h1 h1' hpos h3 h3'
    simp only [salesAddPayment, salesAddPaymentMethod]
    rw [if_neg h1, if_neg (not_le.mpr hpos), if_neg (not_lt.mpr h3),
      if_neg h1', if_neg (not_le.mpr hpos), if_neg (not_lt.mpr h3')]
    have hm : salesAddPaymentMethod sale fid ⟨a, d, pd⟩ now
        = salesAddPaymentMethod sale fid ⟨a, d', pd⟩ now := rfl
    simp only [salesAddPaymentMethod] at hm
    rw [hm]
  · intro sale payments fid d pd now hpos hd hdle hfm hout hvalid
    have hval1 : salesValidate (salesAfterPaymentAssignments sale ⟨0, d, pd⟩ now) := by
      obtain ⟨v1, v2, v3, v4, v5, v6, v7, v8, v9⟩ := hvalid
      rw [hout] at hpos
      refine ⟨v1, v2, v3, v4, v5, v6, v7, ?_, ?_⟩
      · show (0 : ℚ) ≤ sale.receivedAmount + 0
        linarith
      · show (0 : ℚ) ≤ sale.amount - (sale.receivedAmount + 0)
        linarith
    have hok : salesAddPayment (some sale) payments fid ⟨0, d, pd⟩ now
        = ⟨.ok { pid := fid, amount := 0, discount := 0, paymentDate := pd },
            some (salesPreSave (salesAfterPaymentAssignments sale ⟨0, d, pd⟩ now) now),
            payments ++ [{ pid := fid, amount := 0, discount := 0, paymentDate := pd }]⟩ := by
      simp only [salesAddPayment, salesAddPaymentMethod]
      rw [if_neg (by rintro ⟨-, hd2⟩; linarith), if_neg (not_le.mpr hpos),
        if_neg (not_lt.mpr (by linarith)), if_neg (by norm_num), if_pos hval1]
    constructor
    · intro e he
      rw [hok] at he
      exact Except.noConfusion he
    · intro s' p hre hsa
      rw [hok] at hsa
      simp only [Option.some.injEq] at hsa
      subst hsa
      refine ⟨?_, ?_, ?_⟩
      · show sale.receivedAmount + 0 = sale.receivedAmount
        exact add_zero _
      · rw [salesPreSave_outstanding, salesPreSave_amount, salesPreSave_received]
        show sale.quantity * sale.rate + sale.quantity * sale.rate * sale.vatPercentage / 100
            - sale.discount - (sale.receivedAmount + 0) = sale.outstandingAmount
        rw [add_zero, ← hfm, ← hout]
      · show deriveStatus (sale.quantity * sale.rate
            + sale.quantity * sale.rate * sale.vatPercentage / 100 - sale.discount
            - (sale.receivedAmount + 0)) (sale.receivedAmount + 0) sale.dueDate now
          = deriveStatus sale.outstandingAmount sale.receivedAmount sale.dueDate now
        rw [add_zero, ← hfm, ← hout]

/-- Witness for the amended C10: the accepted request of amount 0 and
discount 40 against the fresh invoice at its creation time persists a
payment with discount 0 and leaves received (0), outstanding (100)
unchanged, with the status the pure function yields at those amounts. -/
theorem payment_discount_not_persisted_witness :
    zeroAmountPay.discount = 0
    ∧ (zeroAmountSale.receivedAmount = freshSale.receivedAmount
      ∧ zeroAmountSale.outstandingAmount = freshSale.outstandingAmount
      ∧ zeroAmountSale.status
          = deriveStatus freshSale.outstandingAmount freshSale.receivedAmount
              freshSale.dueDate 0) :=
  ⟨payment_discount_not_persisted.1 freshSale [] 0 ⟨0, 40, 5⟩ 0 zeroAmountPay
      (by norm_num [salesAddPayment, salesAddPaymentMethod, salesAfterPaymentAssignments,
        salesValidate, freshSale, initialSalesDoc, salesPreSave, deriveStatus,
        zeroAmountPay]),
   (payment_discount_not_persisted.2.2 freshSale [] 0 40 5 0
      (by norm_num [freshSale, initialSalesDoc, salesPreSave, deriveStatus])
      (by norm_num)
      (by norm_num [freshSale, initialSalesDoc, salesPreSave, deriveStatus])
      (by norm_num [freshSale, initialSalesDoc, salesPreSave, deriveStatus])
      (by norm_num [freshSale, initialSalesDoc, salesPreSave, deriveStatus])
      (by norm_num [salesValidate, freshSale, initialSalesDoc, salesPreSave,
        deriveStatus])).2
      zeroAmountSale zeroAmountPay
      (by norm_num [salesAddPayment, salesAddPaymentMethod, salesAfterPaymentAssignments,
        salesValidate, freshSale, initialSalesDoc, salesPreSave, deriveStatus,
        zeroAmountPay])
      (by norm_num [salesAddPayment, salesAddPaymentMethod, salesAfterPaymentAssignments,
        salesValidate, freshSale, initialSalesDoc, salesPreSave, deriveStatus,
        zeroAmountSale, zeroAmountPay])⟩

/-- Counterexample to C10 as stated: the zero-amount, discount-40 request
against the fresh unpaid invoice at time 1 — past its due date 0 — is
accepted, leaves received and outstanding unchanged, yet the stored status
changes from unpaid to overdue: the save re-runs the status derivation at
the current clock. -/
theorem payment_zero_amount_status_counterexample :
    freshSale.status = .unpaid
    ∧ (0 : ℚ) < freshSale.outstandingAmount
    ∧ (salesAddPayment (some freshSale) [] 0 ⟨0, 40, 5⟩ 1).response = .ok zeroAmountPay
    ∧ (salesAddPayment (some freshSale) [] 0 ⟨0, 40, 5⟩ 1).sale = some overdueZeroSale
    ∧ overdueZeroSale.receivedAmount = freshSale.receivedAmount
    ∧ overdueZeroSale.outstandingAmount = freshSale.outstandingAmount
    ∧ overdueZeroSale.status ≠ freshSale.status := by
  refine ⟨?_, ?_, ?_, ?_, ?_, ?_, ?_⟩ <;>
    norm_num [salesAddPayment, salesAddPaymentMethod, salesAfterPaymentAssignments,
      salesValidate, freshSale, initialSalesDoc, salesPreSave, deriveStatus,
      overdueZeroSale, zeroAmountPay]
  decide

end Sijil
